import Mathlib

/-!
Shallow embedding of the browser-facing API-client layer of the
Data-Analytics-Web-App frontend (`src/frontend/src/lib/api.ts`,
`src/frontend/src/lib/roles.ts`, `src/frontend/src/lib/logger.ts`,
`src/frontend/src/components/ui/DataTable.tsx`).

Machine conventions used throughout:
* JavaScript strings are Lean `String`s; where character-level reasoning is
  needed (`roles.ts`), a string is its list of UTF-16 code points (`List Nat`).
* `string | null | undefined` becomes `Option String` (both `null` and
  `undefined` map to `none`).
* JavaScript's `a || b` on strings (empty string falsy) is `jsOrStr`.
* Browser storage (`localStorage` / `sessionStorage` / cookies) is an
  association list from keys to stored values.
* Times (`Date.now()`, metadata issue times) are `Int` milliseconds.
-/

namespace DAW

/-- JS `a || b` where `a : string | undefined | null`: the empty string is
falsy, so it falls through to `b`. -/
def jsOrStr : Option String → String → String
  | some s, b => if s = "" then b else s
  | none,   b => b

/-- JS `hay.includes(needle)`: substring test on code points. -/
def jsIncludes (hay needle : String) : Bool :=
  decide (needle.toList <:+: hay.toList)

/- ------------------------------------------------------------------ -/
/-! ### `api.ts` line 638: `API_BASE_URL` -/

/-- `const API_BASE_URL = process.env.NEXT_PUBLIC_API_URL || "http://localhost:8000";`
(`api.ts` line 638).  The environment variable is `none` when unset. -/
def apiBaseUrl (env : Option String) : String :=
  jsOrStr env "http://localhost:8000"

/- ------------------------------------------------------------------ -/
/-! ### `roles.ts` lines 1–7: `normalizeRoleCode` / `isAdmin`

A JS string is modelled as its list of UTF-16 code points so that
`trim`/`toUpperCase` are explicit code-point maps. -/

/-- Code points removed by JS `String.prototype.trim` (ECMAScript WhiteSpace
and LineTerminator sets). -/
def isJsWhitespace (n : Nat) : Bool :=
  (9 ≤ n && n ≤ 13) || n == 32 || n == 160 || n == 0x1680 ||
  (0x2000 ≤ n && n ≤ 0x200A) || n == 0x2028 || n == 0x2029 ||
  n == 0x202F || n == 0x205F || n == 0x3000 || n == 0xFEFF

/-- JS `String.prototype.toUpperCase` on one code point, for the ASCII
range the role codes live in: lowercase `a`–`z` shift down by 32. -/
def jsToUpperCode (n : Nat) : Nat :=
  if 97 ≤ n && n ≤ 122 then n - 32 else n

/-- JS `String.prototype.trim`: drop whitespace from both ends. -/
def jsTrim (s : List Nat) : List Nat :=
  ((s.dropWhile isJsWhitespace).reverse.dropWhile isJsWhitespace).reverse

/-- `roles.ts` line 2: `(code ?? '').toString().trim().toUpperCase()`.
`none` stands for both `null` and `undefined` (the `??` default);
`.toString()` is the identity on strings. -/
def normalizeRoleCode (code : Option (List Nat)) : List Nat :=
  (jsTrim (code.getD [])).map jsToUpperCode

/-- The code-point rendering of the string literal `'ADMIN'`. -/
def adminCode : List Nat := [65, 68, 77, 73, 78]

/-- `roles.ts` line 6: `normalizeRoleCode(code) === 'ADMIN'`. -/
def isAdmin (code : Option (List Nat)) : Bool :=
  normalizeRoleCode code == adminCode

/- ------------------------------------------------------------------ -/
/-! ### `api.ts` lines 1462–1471: `createQuery` -/

/-- Minimal stand-in for the `Query` DTO returned by `/api/admin/query`
(the claim does not inspect its fields). -/
structure QueryDto where
  id : Nat
  name : String
deriving DecidableEq, Repr

/-- The `APIResponse<Query>` envelope as `createQuery` consumes it. -/
structure CreateQueryResponse where
  success : Bool
  data : Option QueryDto
  message : Option String
deriving DecidableEq, Repr

/-- `api.ts` line 1465: the `role` field of the request body,
`data.role || ["user"]`.  A present list — even the empty one, which is
truthy in JS — is kept; `undefined`/`null` fall back to `["user"]`. -/
def createQueryRoleField (role : Option (List String)) : List String :=
  match role with
  | some r => r
  | none => ["user"]

/-- `api.ts` lines 1467–1470: `if (response.success && response.data)
return response.data; throw new Error(response.message || "Failed to create query");` -/
def createQueryResult (resp : CreateQueryResponse) : Except String QueryDto :=
  match resp.success, resp.data with
  | true, some q => .ok q
  | _, _ => .error (jsOrStr resp.message "Failed to create query")

/- ------------------------------------------------------------------ -/
/-! ### Browser storage (`api.ts` lines 766–852, `logger.ts` flush)

Each storage area is an association list from keys to stored values.  A
stored value is kept in parsed form: `.str` is an ordinary string (also
standing for any stored text whose `JSON.parse` fails), `.meta` a
well-formed `token_metadata` record, `.logs` the parsed `app_logs`
array. -/

/-- The `token_metadata` record written by `setToken`
(`api.ts` lines 825–829). -/
structure TokenMetadata where
  issued : Int
  userAgent : String
  domain : String
deriving DecidableEq, Repr

/-- A value held in a browser storage slot, in parsed form. -/
inductive StoredVal where
  | str (s : String)
  | meta (m : TokenMetadata)
  | logs (entries : List String)
deriving DecidableEq, Repr

/-- One storage area (`localStorage`, `sessionStorage`, or the cookie jar). -/
abbrev Store := List (String × StoredVal)

/-- `storage.getItem(k)` / `Cookies.get(k)`: `null` when absent. -/
def Store.getItem (st : Store) (k : String) : Option StoredVal :=
  (st.find? (fun p => p.1 == k)).map (·.2)

/-- `storage.setItem(k, v)` / `Cookies.set(k, v)`: overwrite. -/
def Store.setItem (st : Store) (k : String) (v : StoredVal) : Store :=
  (k, v) :: st.filter (fun p => p.1 != k)

/-- `storage.removeItem(k)` / `Cookies.remove(k)`. -/
def Store.removeItem (st : Store) (k : String) : Store :=
  st.filter (fun p => p.1 != k)

/-- Read a slot expecting a plain string (what `getItem` returns to JS). -/
def Store.getStr (st : Store) (k : String) : Option String :=
  match st.getItem k with
  | some (.str s) => some s
  | _ => none

/-- The three storage areas visible to the client. -/
structure BrowserState where
  cookies : Store
  session : Store
  localS : Store
deriving DecidableEq, Repr

/-- `api.ts` lines 805–831, `setToken(token)`: cookie + sessionStorage +
localStorage all get `auth_token`, and localStorage gets the
`token_metadata` record `{ issued: Date.now(), userAgent, domain }`. -/
def setToken (s : BrowserState) (token : String) (now : Int)
    (userAgent domain : String) : BrowserState :=
  { cookies := s.cookies.setItem "auth_token" (.str token)
    session := s.session.setItem "auth_token" (.str token)
    localS := (s.localS.setItem "auth_token" (.str token)).setItem
      "token_metadata" (.meta ⟨now, userAgent, domain⟩) }

/-- `api.ts` lines 946–950, `setUser(user)`: `localStorage.setItem("user",
JSON.stringify(user))`.  The serialised user is an opaque string here. -/
def setUser (s : BrowserState) (userJson : String) : BrowserState :=
  { s with localS := s.localS.setItem "user" (.str userJson) }

/-- `api.ts` lines 833–852, `removeToken()`: remove `auth_token` from the
cookie jar, sessionStorage and localStorage, remove `user` and
`token_metadata` from localStorage, then `sessionStorage.clear()`
(which wipes every sessionStorage key). -/
def removeToken (s : BrowserState) : BrowserState :=
  { cookies := s.cookies.removeItem "auth_token"
    session := []
    localS := ((s.localS.removeItem "auth_token").removeItem
      "user").removeItem "token_metadata" }

/-- Maximum token age accepted by `getToken` (`api.ts` line 790):
24 hours in milliseconds. -/
def tokenMaxAgeMs : Int := 24 * 60 * 60 * 1000

/-- The token lookup chain of `api.ts` lines 771–773:
`sessionStorage.getItem("auth_token") || Cookies.get("auth_token") ||
localStorage.getItem("auth_token")`, with the final `if (!token)` check
(line 775) folding the all-empty case into `none`. -/
def storedTokenLookup (s : BrowserState) : Option String :=
  let t := jsOrStr (s.session.getStr "auth_token")
    (jsOrStr (s.cookies.getStr "auth_token")
      (jsOrStr (s.localS.getStr "auth_token") ""))
  if t = "" then none else some t

/-- `api.ts` lines 766–803, `getToken()`: pick the stored token
(sessionStorage, then cookie, then localStorage); when
`token_metadata` parses, reject the token — wiping all auth storage —
if its `userAgent` differs from the current one or it was issued more
than 24 h ago; a missing or unparsable metadata record leaves the token
accepted.  Returns the result and the (possibly cleaned) storage. -/
def getToken (s : BrowserState) (now : Int) (currentUA : String) :
    Option String × BrowserState :=
  match storedTokenLookup s with
  | none => (none, s)
  | some token =>
    match s.localS.getItem "token_metadata" with
    | some (.meta m) =>
      if m.userAgent ≠ currentUA then
        (none, removeToken s)
      else if now - m.issued > tokenMaxAgeMs then
        (none, removeToken s)
      else
        (some token, s)
    | _ => (some token, s)

/-- `logger.ts` lines 112–144 (sessionStorage part of `flush()`): when the
buffer is non-empty and the last flush is at least 5 s old, append the
buffered entries to the parsed `app_logs` array (`[]` when absent;
a parse failure aborts the write) and store the last 200 entries back
under `app_logs`. -/
def loggerFlushSession (session : Store) (buffer : List String)
    (now lastFlush : Int) : Store :=
  if buffer.isEmpty || now - lastFlush < 5000 then
    session
  else
    match session.getItem "app_logs" with
    | some (.logs existing) =>
      let allLogs := (existing ++ buffer)
      session.setItem "app_logs" (.logs (allLogs.drop (allLogs.length - 200)))
    | none =>
      session.setItem "app_logs" (.logs (buffer.drop (buffer.length - 200)))
    | some _ => session

/- ------------------------------------------------------------------ -/
/-! ### `api.ts` lines 703–762: the response interceptor's error branch -/

/-- The parts of an axios error the interceptor inspects.
`status = none` models `error.response` being absent (network failure);
`dataErrorStr` is `error.response?.data?.error` when it is a string,
`dataErrorNonString` records a present non-string `error` field,
`hasDetail` the truthiness of `error.response?.data?.detail`. -/
structure AxiosErr where
  status : Option Int
  url : Option String
  dataErrorStr : Option String
  dataErrorNonString : Bool
  hasDetail : Bool
  message : Option String
deriving DecidableEq, Repr

/-- Truthiness of `error.response?.data?.error`. -/
def AxiosErr.errTruthy (e : AxiosErr) : Bool :=
  match e.dataErrorStr with
  | some s => s != ""
  | none => e.dataErrorNonString

/-- `api.ts` lines 743–746 / 752–755: the toast text, `"An error
occurred"` when `data.error` is not a string. -/
def AxiosErr.errMsg (e : AxiosErr) : String :=
  match e.dataErrorStr with
  | some s => s
  | none => "An error occurred"

/-- How the promise returned by the interceptor behaves: `halt` is the
never-settling `new Promise(() => {})` of line 732, `reject` the
`Promise.reject(error)` of line 760. -/
inductive PromiseOutcome where
  | halt
  | reject
deriving DecidableEq, Repr

/-- The observable effects of one run of the error branch. -/
structure InterceptorEffect where
  removedToken : Bool
  redirectedToLogin : Bool
  toast : Option String
  outcome : PromiseOutcome
deriving DecidableEq, Repr

/-- The toast text of the 5xx branch (`api.ts` line 735). -/
def serverErrorToast : String := "Server error. Please try again later."

/-- `api.ts` lines 721–760, the response-error interceptor:
401 → token cleanup + redirect unless the request URL contains
`/auth/login`, and in either case a never-settling promise; status ≥ 500
→ server-error toast; 400 ≤ status < 500 → toast only when `data.error`
is truthy and `data.detail` absent; otherwise toast `data.error` or
`error.message` when truthy.  Every non-401 path re-rejects the error. -/
def respondToError (e : AxiosErr) : InterceptorEffect :=
  if e.status = some 401 then
    if !(jsIncludes (e.url.getD "") "/auth/login") then
      { removedToken := true, redirectedToLogin := true,
        toast := none, outcome := .halt }
    else
      { removedToken := false, redirectedToLogin := false,
        toast := none, outcome := .halt }
  else if (match e.status with | some s => decide (500 ≤ s) | none => false) then
    { removedToken := false, redirectedToLogin := false,
      toast := some serverErrorToast, outcome := .reject }
  else if (match e.status with
      | some s => decide (400 ≤ s) && decide (s < 500)
      | none => false) then
    if e.errTruthy && !e.hasDetail then
      { removedToken := false, redirectedToLogin := false,
        toast := some e.errMsg, outcome := .reject }
    else
      { removedToken := false, redirectedToLogin := false,
        toast := none, outcome := .reject }
  else if e.errTruthy then
    { removedToken := false, redirectedToLogin := false,
      toast := some e.errMsg, outcome := .reject }
  else
    match e.message with
    | some m =>
      if m != "" then
        { removedToken := false, redirectedToLogin := false,
          toast := some m, outcome := .reject }
      else
        { removedToken := false, redirectedToLogin := false,
          toast := none, outcome := .reject }
    | none =>
      { removedToken := false, redirectedToLogin := false,
        toast := none, outcome := .reject }

/- ------------------------------------------------------------------ -/
/-! ### `api.ts` lines 1142–1183 etc.: the request-wrapper methods -/

/-- What the transport layer hands the wrapper for its single request. -/
inductive TransportResult (α : Type) where
  | ok (v : α)
  | err (e : AxiosErr)
deriving DecidableEq, Repr

/-- How the promise a wrapper returns eventually behaves. -/
inductive CallOutcome (α : Type) where
  | resolved (v : α)
  | rejectedOnce (e : AxiosErr)
  | pending
deriving DecidableEq, Repr

/-- The shape shared by `executeQuery`, `executeFilteredQuery`,
`exportData`, `getMenuItems`, … (`api.ts` lines 1142–1183, 1075–1083):
`try { const r = await this.client.post(...); return r.data } catch (e)
{ throw e }` — one awaited request, whose error (already filtered by the
response interceptor) is rethrown unchanged.  The `Nat` component counts
HTTP requests issued. -/
def requestWrapper {α : Type} (transport : TransportResult α) :
    Nat × CallOutcome α :=
  (1,
    match transport with
    | .ok v => .resolved v
    | .err e =>
      match (respondToError e).outcome with
      | .halt => .pending
      | .reject => .rejectedOnce e)

/-- `api.ts` lines 1142–1152, `executeQuery` (the payload type is left
abstract; the method body is the shared wrapper shape verbatim). -/
def executeQuery {α : Type} (transport : TransportResult α) :
    Nat × CallOutcome α :=
  requestWrapper transport

/-- `api.ts` lines 1154–1166, `executeFilteredQuery`. -/
def executeFilteredQuery {α : Type} (transport : TransportResult α) :
    Nat × CallOutcome α :=
  requestWrapper transport

/- ------------------------------------------------------------------ -/
/-! ### `api.ts` lines 911–943: the `refreshToken` re-entrancy guard -/

/-- The guard state together with a ghost count of in-flight
`POST /auth/refresh` requests. -/
structure RefreshState where
  isRefreshing : Bool
  inFlight : Nat
deriving DecidableEq, Repr

/-- The atomic transitions of `refreshToken`: `enter` is the call up to
and including issuing the awaited `this.client.post("/auth/refresh")`
(line 921); `response` is that HTTP request completing with the given
result (the token payload is irrelevant to the guard, hence `Unit`).
JS is single-threaded, so each observable step is one of these. -/
inductive RefreshEvent where
  | enter
  | response (result : TransportResult Unit)
deriving DecidableEq, Repr

/-- One transition.  `enter` with the guard set returns at line 914
without touching the network.  A `response` ends the in-flight request,
but whether the `finally` (line 941) that clears the guard runs depends
on the response interceptor the refresh request goes through: a success
or a rejected error resumes the `await` (then `finally` runs), while a
401 error is replaced by the interceptor's never-settling promise (line
732), so the `await` never resumes and the guard is never cleared.  A
`response` with nothing in flight cannot occur and is a no-op. -/
def refreshStep (s : RefreshState) : RefreshEvent → RefreshState
  | .enter =>
    if s.isRefreshing then s
    else { isRefreshing := true, inFlight := s.inFlight + 1 }
  | .response r =>
    if s.inFlight = 0 then s
    else
      match r with
      | .ok _ => { isRefreshing := false, inFlight := s.inFlight - 1 }
      | .err e =>
        match (respondToError e).outcome with
        | .reject => { isRefreshing := false, inFlight := s.inFlight - 1 }
        | .halt => { s with inFlight := s.inFlight - 1 }

/-- The guard starts clear (`api.ts` line 645). -/
def refreshInit : RefreshState := { isRefreshing := false, inFlight := 0 }

/-- State after a whole event trace. -/
def refreshRun (events : List RefreshEvent) : RefreshState :=
  events.foldl refreshStep refreshInit

/- ------------------------------------------------------------------ -/
/-! ### `api.ts` lines 854–909: the refresh timer -/

/-- 20-minute check interval (`api.ts` line 875). -/
def refreshCheckMs : Int := 20 * 60 * 1000

/-- 10-minute inactivity threshold (`api.ts` line 895). -/
def inactivityThresholdMs : Int := 10 * 60 * 1000

/-- The timer-related fields of `ApiClient`.  `refreshTimer` holds the
absolute fire time of the single pending `setTimeout`; `tokenValid`
is the truthiness of `this.isAuthenticated() && this.getToken()`. -/
structure TimerState where
  refreshTimer : Option Int
  hasActivityTracker : Bool
  lastActivity : Int
  tokenValid : Bool
deriving DecidableEq, Repr

/-- `api.ts` lines 880–890, `clearRefreshTimer()`: cancel the pending
timeout and stop the activity tracker. -/
def clearRefreshTimer (s : TimerState) : TimerState :=
  { s with refreshTimer := none, hasActivityTracker := false }

/-- `api.ts` lines 854–878, `setupTokenRefresh()`: always clear first;
then, when a token is present, start activity tracking and (the timer
being `null` after the clear) schedule one `checkAndRefreshToken` 20
minutes out. -/
def setupTokenRefresh (s : TimerState) (now : Int) : TimerState :=
  let s1 := clearRefreshTimer s
  if s.tokenValid then
    { s1 with hasActivityTracker := true,
              refreshTimer := some (now + refreshCheckMs) }
  else s1

/-- `api.ts` lines 966–1010, the success path of `login`: `setToken` makes
the token valid, then `setupTokenRefresh()` runs. -/
def loginSuccess (s : TimerState) (now : Int) : TimerState :=
  setupTokenRefresh { s with tokenValid := true } now

/-- `api.ts` lines 911–943, `refreshToken()` (timer-state view): on
success `setToken`/`setUser` keep the token valid, `lastActivity`
becomes `now`, and `setupTokenRefresh()` re-arms; on failure
`removeToken()` (which calls `clearRefreshTimer`) drops the token and
the browser is sent to `/login`. -/
def refreshTokenTimer (s : TimerState) (now : Int) (success : Bool) :
    TimerState :=
  if success then
    setupTokenRefresh { s with tokenValid := true, lastActivity := now } now
  else
    clearRefreshTimer { s with tokenValid := false }

/-- `api.ts` lines 892–909, `checkAndRefreshToken()`: when the user has
been inactive for more than 10 minutes, skip the refresh and just
re-arm via `setupTokenRefresh`; otherwise run `refreshToken`.  The
`Bool` result records whether a refresh was attempted. -/
def checkAndRefreshToken (s : TimerState) (now : Int) (success : Bool) :
    Bool × TimerState :=
  if now - s.lastActivity > inactivityThresholdMs then
    (false, setupTokenRefresh s now)
  else
    (true, refreshTokenTimer s now success)

/- ------------------------------------------------------------------ -/
/-! ### `DataTable.tsx` lines 40–63: filtering, search and pagination

A cell is `Option String`: `none` for SQL `null`/`undefined`, otherwise
the cell's `toString()` rendering. -/

/-- `cell?.toString().toLowerCase().includes(searchTerm.toLowerCase())`
(`DataTable.tsx` lines 45–46); the optional chain makes a null cell
falsy. -/
def cellMatchesSearch (term : String) (cell : Option String) : Bool :=
  match cell with
  | some s => jsIncludes s.toLower term.toLower
  | none => false

/-- `DataTable.tsx` lines 44–47, the search part of the row predicate:
`!searchTerm || row.some(cell => …)`. -/
def rowMatchesSearch (term : String) (row : List (Option String)) : Bool :=
  term == "" || row.any (cellMatchesSearch term)

/-- `row[columnIndex]?.toString().toLowerCase() || ''`
(`DataTable.tsx` line 52): missing or null cells render as `''`. -/
def cellValueAt (row : List (Option String)) (idx : Nat) : String :=
  match row.get? idx with
  | some (some s) => s.toLower
  | _ => ""

/-- `DataTable.tsx` lines 50–54, the column-filter part of the row
predicate: every entry of the filter map either has a falsy value or its
column's rendered cell contains it (lower-cased). -/
def rowMatchesFilters (filters : List (Nat × String))
    (row : List (Option String)) : Bool :=
  filters.all (fun f =>
    f.2 == "" || jsIncludes (cellValueAt row f.1) f.2.toLower)

/-- `DataTable.tsx` lines 40–58, `filteredData`. -/
def filteredData (rows : List (List (Option String))) (term : String)
    (filters : List (Nat × String)) : List (List (Option String)) :=
  rows.filter (fun row => rowMatchesSearch term row && rowMatchesFilters filters row)

/-- `DataTable.tsx` lines 61–63, `paginatedData`:
`filteredData.slice((currentPage-1)*pageSize, (currentPage-1)*pageSize + pageSize)`. -/
def paginatedData (rows : List (List (Option String))) (term : String)
    (filters : List (Nat × String)) (currentPage pageSize : Nat) :
    List (List (Option String)) :=
  ((filteredData rows term filters).drop ((currentPage - 1) * pageSize)).take pageSize

/-- The row predicate of claim C9 read literally (spec-side definition,
for comparison with `filteredData`): "some cell contains the search term
(case-insensitively) and, for every non-empty column filter, that
column's cell contains the filter value" — with no escape for an empty
search term. -/
def claimNineRowPred (term : String) (filters : List (Nat × String))
    (row : List (Option String)) : Bool :=
  row.any (cellMatchesSearch term) && rowMatchesFilters filters row

/- ------------------------------------------------------------------ -/
/-! ### Verification-side definitions -/

/-- The inductive invariant of the refresh guard: a request can be in
flight only while `isRefreshing` is set, and never more than one.
(After a swallowed 401 the flag stays set with nothing in flight, so the
count is bounded by the flag, not equal to it.) -/
def RefreshInv (s : RefreshState) : Prop :=
  s.inFlight ≤ (if s.isRefreshing then 1 else 0)

/-- The metadata check of `getToken` (`api.ts` lines 777–800) passes:
`token_metadata` is absent or unparsable, or names the current user
agent and was issued at most 24 h ago. -/
def metadataAccepts (s : BrowserState) (now : Int) (ua : String) : Bool :=
  match s.localS.getItem "token_metadata" with
  | some (.meta m) => m.userAgent == ua && decide (now - m.issued ≤ tokenMaxAgeMs)
  | _ => true

/- ================================================================== -/
/-! ## Helper lemmas -/

theorem jsToUpperCode_idem (n : Nat) :
    jsToUpperCode (jsToUpperCode n) = jsToUpperCode n := by
  unfold jsToUpperCode
  split
  · rename_i h
    simp only [Bool.and_eq_true, decide_eq_true_eq] at h
    have hc : (decide (97 ≤ n - 32) && decide (n - 32 ≤ 122)) = false := by
      simp only [Bool.and_eq_false_iff, decide_eq_false_iff_not, not_le]
      omega
    simp only [hc, Bool.false_eq_true, if_false]
  · rfl

theorem isJsWhitespace_eq_false {m : Nat} (h1 : 65 ≤ m) (h2 : m ≤ 122) :
    isJsWhitespace m = false := by
  unfold isJsWhitespace
  simp only [Bool.or_eq_false_iff, Bool.and_eq_false_iff,
    decide_eq_false_iff_not, not_le, beq_eq_false_iff_ne, ne_eq]
  omega

theorem isJsWhitespace_jsToUpperCode (n : Nat) :
    isJsWhitespace (jsToUpperCode n) = isJsWhitespace n := by
  unfold jsToUpperCode
  split
  · rename_i h
    simp only [Bool.and_eq_true, decide_eq_true_eq] at h
    rw [isJsWhitespace_eq_false (by omega) (by omega),
        isJsWhitespace_eq_false (by omega) (by omega)]
  · rfl

theorem dropWhile_map_eq (f : Nat → Nat) (p : Nat → Bool) (l : List Nat)
    (hp : ∀ x, p (f x) = p x) :
    (l.map f).dropWhile p = (l.dropWhile p).map f := by
  induction l with
  | nil => rfl
  | cons a t ih =>
    simp only [List.map_cons, List.dropWhile_cons, hp a]
    split <;> simp [ih]

theorem rdropWhile_map_eq (f : Nat → Nat) (p : Nat → Bool) (l : List Nat)
    (hp : ∀ x, p (f x) = p x) :
    (l.map f).rdropWhile p = (l.rdropWhile p).map f := by
  simp only [List.rdropWhile, ← List.map_reverse,
    dropWhile_map_eq f p _ hp]

theorem jsTrim_eq_rdropWhile (l : List Nat) :
    jsTrim l = (l.dropWhile isJsWhitespace).rdropWhile isJsWhitespace := rfl

theorem dropWhile_eq_self_of_prefix {p : Nat → Bool} {u v : List Nat}
    (hpre : v <+: u) (hu : u.dropWhile p = u) : v.dropWhile p = v := by
  rw [List.dropWhile_eq_self_iff] at hu ⊢
  intro hl
  have h0 : 0 < u.length := lt_of_lt_of_le hl hpre.length_le
  have hv := hu h0
  have hg : v.get ⟨0, hl⟩ = u.get ⟨0, h0⟩ := by
    simp only [List.get_eq_getElem]
    exact hpre.getElem hl
  rwa [hg]

theorem jsTrim_idem (l : List Nat) : jsTrim (jsTrim l) = jsTrim l := by
  rw [jsTrim_eq_rdropWhile, jsTrim_eq_rdropWhile,
    dropWhile_eq_self_of_prefix (List.rdropWhile_prefix _ _)
      (List.dropWhile_idempotent _ _),
    List.rdropWhile_idempotent]

theorem jsTrim_map_toUpper (l : List Nat) :
    jsTrim (l.map jsToUpperCode) = (jsTrim l).map jsToUpperCode := by
  rw [jsTrim_eq_rdropWhile, jsTrim_eq_rdropWhile,
    dropWhile_map_eq _ _ _ isJsWhitespace_jsToUpperCode,
    rdropWhile_map_eq _ _ _ isJsWhitespace_jsToUpperCode]

theorem respondToError_outcome (e : AxiosErr) :
    (respondToError e).outcome =
      (if e.status = some 401 then .halt else .reject) := by
  unfold respondToError
  by_cases h : e.status = some 401
  · rw [if_pos h, if_pos h]
    split <;> rfl
  · rw [if_neg h, if_neg h]
    repeat' split
    all_goals rfl

/- ================================================================== -/
/-! ## Claims -/

/-- C10: `normalizeRoleCode` is idempotent
(`normalizeRoleCode(normalizeRoleCode(x)) = normalizeRoleCode(x)` for every
input), maps `null` and `undefined` (both `none`) to the empty string, and
`isAdmin(x)` holds exactly when `normalizeRoleCode(x) = "ADMIN"`. -/
theorem normalizeRoleCode_idem_isAdmin (c : Option (List Nat)) :
    normalizeRoleCode (some (normalizeRoleCode c)) = normalizeRoleCode c ∧
    normalizeRoleCode none = [] ∧
    (isAdmin c = true ↔ normalizeRoleCode c = adminCode) := by
  refine ⟨?_, rfl, by simp [isAdmin]⟩
  show (jsTrim ((jsTrim (c.getD [])).map jsToUpperCode)).map jsToUpperCode = _
  rw [jsTrim_map_toUpper, jsTrim_idem, List.map_map]
  exact List.map_congr_left (fun a _ => jsToUpperCode_idem a)

/-- Witness for C10: ` admin` (with whitespace, lowercase) is recognised
as the admin role. -/
theorem normalizeRoleCode_idem_isAdmin_witness :
    isAdmin (some [32, 97, 100, 109, 105, 110]) = true := by
  rw [(normalizeRoleCode_idem_isAdmin (some [32, 97, 100, 109, 105, 110])).2.2]
  decide

example : normalizeRoleCode (some [32, 97, 100, 109, 105, 110, 32]) =
    adminCode := by decide

example : isAdmin (some [9, 65, 68, 77, 73, 78]) = true := by decide

example : isAdmin (some [85, 83, 69, 82]) = false := by decide

/-- C6: for every construction of the `ApiClient`, the HTTP base URL equals
`NEXT_PUBLIC_API_URL` when that environment variable is set and non-empty,
and `"http://localhost:8000"` otherwise. -/
theorem apiBaseUrl_spec (s : String) :
    (s ≠ "" → apiBaseUrl (some s) = s) ∧
    apiBaseUrl none = "http://localhost:8000" ∧
    apiBaseUrl (some "") = "http://localhost:8000" := by
  refine ⟨fun h => ?_, rfl, rfl⟩
  simp [apiBaseUrl, jsOrStr, h]

/-- Witness for C6 at a concrete environment value. -/
theorem apiBaseUrl_spec_witness :
    apiBaseUrl (some "https://api.example.com") = "https://api.example.com" :=
  (apiBaseUrl_spec "https://api.example.com").1 (by decide)

/-- C7: `createQuery` submits the caller-supplied role list when given and
`["user"]` otherwise, returns the created query when the response has
`success` true and a `data` field, and throws an `Error` otherwise. -/
theorem createQuery_spec (r : List String) (resp : CreateQueryResponse)
    (q : QueryDto) :
    createQueryRoleField (some r) = r ∧
    createQueryRoleField none = ["user"] ∧
    (resp.success = true → resp.data = some q →
      createQueryResult resp = .ok q) ∧
    (resp.success = false ∨ resp.data = none →
      createQueryResult resp =
        .error (jsOrStr resp.message "Failed to create query")) := by
  refine ⟨rfl, rfl, fun hs hd => ?_, fun h => ?_⟩
  · simp [createQueryResult, hs, hd]
  · rcases h with h | h
    · cases hd : resp.data <;> simp [createQueryResult, h, hd]
    · cases hs : resp.success <;> simp [createQueryResult, h, hs]

/-- Witness for C7 at concrete responses. -/
theorem createQuery_spec_witness :
    createQueryResult ⟨true, some ⟨1, "q"⟩, none⟩ = .ok ⟨1, "q"⟩ ∧
    createQueryResult ⟨false, some ⟨1, "q"⟩, some "nope"⟩ = .error "nope" := by
  constructor
  · exact (createQuery_spec [] ⟨true, some ⟨1, "q"⟩, none⟩ ⟨1, "q"⟩).2.2.1 rfl rfl
  · exact (createQuery_spec [] ⟨false, some ⟨1, "q"⟩, some "nope"⟩
      ⟨1, "q"⟩).2.2.2 (Or.inl rfl)

theorem refreshStep_inv {s : RefreshState} (e : RefreshEvent)
    (h : RefreshInv s) : RefreshInv (refreshStep s e) := by
  cases e with
  | enter =>
    by_cases hr : s.isRefreshing
    · simpa [refreshStep, hr] using h
    · simp only [RefreshInv, if_neg hr, Nat.le_zero] at h
      simp [refreshStep, RefreshInv, hr, h]
  | response r =>
    by_cases hf : s.inFlight = 0
    · simpa [refreshStep, hf] using h
    · have h1 : s.inFlight = 1 := by
        simp only [RefreshInv] at h
        by_cases hr : s.isRefreshing
        · rw [if_pos hr] at h
          omega
        · rw [if_neg hr] at h
          omega
      cases r with
      | ok v => simp [refreshStep, hf, RefreshInv, h1]
      | err e' =>
        cases ho : (respondToError e').outcome with
        | reject => simp [refreshStep, hf, ho, RefreshInv, h1]
        | halt => simp [refreshStep, hf, ho, RefreshInv, h1]

theorem refreshRun_inv (events : List RefreshEvent) :
    RefreshInv (refreshRun events) := by
  have main : ∀ (es : List RefreshEvent) (s : RefreshState),
      RefreshInv s → RefreshInv (es.foldl refreshStep s) := by
    intro es
    induction es with
    | nil => exact fun s h => h
    | cons e t ih => exact fun s h => ih _ (refreshStep_inv e h)
  exact main events refreshInit (by simp [RefreshInv, refreshInit])

/-- C2 counterexample: when the awaited `/auth/refresh` request fails
with a 401, the response interceptor replaces the rejection with a
never-settling promise, so the `finally` at line 941 never runs and
`isRefreshing` stays `true` — against the claimed reset after every
refresh attempt. -/
theorem refreshGuard_claim_counterexample :
    (refreshRun [.enter, .response (.err
      ⟨some 401, some "/auth/refresh", none, false, false, none⟩)]).isRefreshing
      = true := by
  decide

/-- C2 (amended): at no reachable state are two token-refresh requests in
flight at once, and a call to `refreshToken` made while `isRefreshing`
is set returns immediately without issuing a request (the state,
in-flight count included, is unchanged); `isRefreshing` is cleared by
the `finally` after every refresh attempt whose awaited request settles
— a success or a non-401 failure — but a 401 failure is swallowed by
the interceptor's never-settling promise, so the `finally` never runs
and the flag stays as it was (set). -/
theorem refreshToken_guard (events : List RefreshEvent) (s : RefreshState)
    (e : AxiosErr) :
    (refreshRun events).inFlight ≤ 1 ∧
    (s.isRefreshing = true → refreshStep s .enter = s) ∧
    (s.inFlight ≠ 0 →
      (refreshStep s (.response (.ok ()))).isRefreshing = false) ∧
    (s.inFlight ≠ 0 → e.status ≠ some 401 →
      (refreshStep s (.response (.err e))).isRefreshing = false) ∧
    (s.inFlight ≠ 0 → e.status = some 401 →
      (refreshStep s (.response (.err e))).isRefreshing = s.isRefreshing) := by
  refine ⟨?_, fun h => ?_, fun h => ?_, fun h h4 => ?_, fun h h4 => ?_⟩
  · have h := refreshRun_inv events
    simp only [RefreshInv] at h
    split at h <;> omega
  · simp [refreshStep, h]
  · simp [refreshStep, h]
  · have ho : (respondToError e).outcome = .reject := by
      rw [respondToError_outcome, if_neg h4]
    simp [refreshStep, h, ho]
  · have ho : (respondToError e).outcome = .halt := by
      rw [respondToError_outcome, if_pos h4]
    simp [refreshStep, h, ho]

/-- Witness for C2 (amended): one request for a double call; a settling
500 failure clears the flag; a swallowed 401 failure leaves it set. -/
theorem refreshToken_guard_witness :
    (refreshRun [.enter, .response (.ok ()), .enter]).inFlight ≤ 1 ∧
    refreshStep ⟨true, 1⟩ .enter = ⟨true, 1⟩ ∧
    (refreshStep ⟨true, 1⟩ (.response (.err
      ⟨some 500, some "/auth/refresh", none, false, false, none⟩))).isRefreshing
      = false ∧
    (refreshStep ⟨true, 1⟩ (.response (.err
      ⟨some 401, some "/auth/refresh", none, false, false, none⟩))).isRefreshing
      = true := by
  refine ⟨(refreshToken_guard [.enter, .response (.ok ()), .enter] ⟨true, 1⟩
      ⟨some 500, some "/auth/refresh", none, false, false, none⟩).1, ?_, ?_, ?_⟩
  · exact (refreshToken_guard [] ⟨true, 1⟩
      ⟨some 500, some "/auth/refresh", none, false, false, none⟩).2.1 rfl
  · exact (refreshToken_guard [] ⟨true, 1⟩
      ⟨some 500, some "/auth/refresh", none, false, false, none⟩).2.2.2.1
      (by decide) (by decide)
  · exact (refreshToken_guard [] ⟨true, 1⟩
      ⟨some 401, some "/auth/refresh", none, false, false, none⟩).2.2.2.2
      (by decide) rfl

/-- C4: a successful login or token refresh schedules the (single) refresh
check 20 minutes out; when the check fires it skips the refresh and
re-arms the timer if the user has been inactive for more than 10 minutes,
and attempts the refresh otherwise. -/
theorem tokenRefresh_timer (s : TimerState) (now : Int) (b : Bool) :
    (loginSuccess s now).refreshTimer = some (now + refreshCheckMs) ∧
    (refreshTokenTimer s now true).refreshTimer = some (now + refreshCheckMs) ∧
    (now - s.lastActivity > inactivityThresholdMs →
      checkAndRefreshToken s now b = (false, setupTokenRefresh s now)) ∧
    (s.tokenValid = true →
      (setupTokenRefresh s now).refreshTimer = some (now + refreshCheckMs)) ∧
    (now - s.lastActivity ≤ inactivityThresholdMs →
      (checkAndRefreshToken s now b).1 = true) := by
  refine ⟨?_, ?_, fun h => ?_, fun h => ?_, fun h => ?_⟩
  · simp [loginSuccess, setupTokenRefresh]
  · simp [refreshTokenTimer, setupTokenRefresh]
  · simp [checkAndRefreshToken, h]
  · simp [setupTokenRefresh, h]
  · simp [checkAndRefreshToken, not_lt.mpr h]

/-- Witness for C4 at concrete times: inactive user (25 min idle) skips and
re-arms; active user (5 min idle) refreshes. -/
theorem tokenRefresh_timer_witness :
    checkAndRefreshToken ⟨some 1200000, true, 0, true⟩ 1500000 true =
      (false, setupTokenRefresh ⟨some 1200000, true, 0, true⟩ 1500000) ∧
    (checkAndRefreshToken ⟨some 1200000, true, 1200000, true⟩ 1500000 true).1 =
      true := by
  constructor
  · exact (tokenRefresh_timer ⟨some 1200000, true, 0, true⟩ 1500000
      true).2.2.1 (by decide)
  · exact (tokenRefresh_timer ⟨some 1200000, true, 1200000, true⟩ 1500000
      true).2.2.2.2 (by decide)

/-- C1 counterexample: a 401 response to the login request itself performs
no token cleanup and no redirect, and a 400 response without a body
`error` field shows no toast — against the claimed universal 401 cleanup
and per-error toast.  (`AxiosErr` fields in order: status, url,
`data.error` string, non-string `data.error` flag, `data.detail` flag,
message.) -/
theorem interceptor_claim_counterexample :
    (respondToError
      ⟨some 401, some "/auth/login", none, false, false, none⟩).removedToken
      = false ∧
    (respondToError
      ⟨some 401, some "/auth/login", none, false, false, none⟩).redirectedToLogin
      = false ∧
    (respondToError ⟨some 400, some "/api/menu", none, false, false,
      some "Request failed with status code 400"⟩).toast = none := by
  decide

/-- C1 (amended): a 401 whose request URL does not contain `/auth/login`
triggers cleanup and redirect and is swallowed by a never-settling
promise; a 401 on the login URL is swallowed with no cleanup; a 5xx shows
the server-error toast; any other 4xx shows a toast exactly when the body
`error` field is truthy and no `detail` field is present; every non-401
error is re-rejected to the caller with no cleanup or redirect. -/
theorem interceptor_behaviour (e : AxiosErr) :
    (e.status = some 401 → jsIncludes (e.url.getD "") "/auth/login" = false →
      respondToError e =
        { removedToken := true, redirectedToLogin := true,
          toast := none, outcome := .halt }) ∧
    (e.status = some 401 → jsIncludes (e.url.getD "") "/auth/login" = true →
      respondToError e =
        { removedToken := false, redirectedToLogin := false,
          toast := none, outcome := .halt }) ∧
    (∀ st : Int, e.status = some st → 500 ≤ st →
      respondToError e =
        { removedToken := false, redirectedToLogin := false,
          toast := some serverErrorToast, outcome := .reject }) ∧
    (∀ st : Int, e.status = some st → 400 ≤ st → st < 500 → st ≠ 401 →
      respondToError e =
        { removedToken := false, redirectedToLogin := false,
          toast := if e.errTruthy && !e.hasDetail then some e.errMsg else none,
          outcome := .reject }) ∧
    (e.status ≠ some 401 → (respondToError e).outcome = .reject ∧
      (respondToError e).removedToken = false ∧
      (respondToError e).redirectedToLogin = false) := by
  refine ⟨fun h1 h2 => ?_, fun h1 h2 => ?_, fun st h1 h2 => ?_,
    fun st h1 h2 h3 h4 => ?_, fun h => ?_⟩
  · simp [respondToError, h1, h2]
  · simp [respondToError, h1, h2]
  · have hne : st ≠ 401 := by omega
    simp [respondToError, h1, hne, h2]
  · have h5 : ¬ (500 ≤ st) := by omega
    simp [respondToError, h1, h4, h5, h2, h3]
    split <;> simp
  · unfold respondToError
    rw [if_neg h]
    repeat' split
    all_goals exact ⟨rfl, rfl, rfl⟩

/-- Witness for C1 (amended) at concrete errors. -/
theorem interceptor_behaviour_witness :
    respondToError ⟨some 401, some "/api/menu", none, false, false, none⟩ =
      ⟨true, true, none, .halt⟩ ∧
    respondToError ⟨some 503, some "/api/menu", none, false, false, none⟩ =
      ⟨false, false, some serverErrorToast, .reject⟩ := by
  constructor
  · exact (interceptor_behaviour _).1 rfl (by decide)
  · exact (interceptor_behaviour _).2.2.1 503 rfl (by decide)

/-- C5 counterexample: a request answered with a 401 never rejects — the
interceptor swallows the error with a never-settling promise — so the
promise does not "reject with that error exactly once". -/
theorem noRetry_claim_counterexample :
    (executeQuery (α := Nat) (TransportResult.err
      ⟨some 401, some "/api/kpis", none, false, false, none⟩)).2 =
      CallOutcome.pending ∧
    (executeQuery (α := Nat) (TransportResult.err
      ⟨some 401, some "/api/kpis", none, false, false, none⟩)).2 ≠
      CallOutcome.rejectedOnce
        ⟨some 401, some "/api/kpis", none, false, false, none⟩ := by
  decide

/-- C5 (amended): every request wrapper issues exactly one HTTP request,
with no retry or backoff; a success resolves with the payload, a non-401
error response rejects with that error exactly once, and a 401 error
response leaves the promise forever pending. -/
theorem requestWrapper_no_retry {α : Type} (t : TransportResult α) (v : α)
    (e : AxiosErr) :
    (executeQuery t).1 = 1 ∧
    (executeFilteredQuery t).1 = 1 ∧
    (executeQuery (TransportResult.ok v)).2 = .resolved v ∧
    (e.status ≠ some 401 →
      (executeQuery (α := α) (TransportResult.err e)).2 = .rejectedOnce e) ∧
    (e.status = some 401 →
      (executeQuery (α := α) (TransportResult.err e)).2 = .pending) := by
  refine ⟨rfl, rfl, rfl, fun h => ?_, fun h => ?_⟩
  · simp [executeQuery, requestWrapper, respondToError_outcome, h]
  · simp [executeQuery, requestWrapper, respondToError_outcome, h]

/-- Witness for C5 (amended): a 500 error rejects exactly once. -/
theorem requestWrapper_no_retry_witness :
    (executeQuery (α := Nat) (TransportResult.err
      ⟨some 500, some "/api/menu", none, false, false, none⟩)).2 =
      CallOutcome.rejectedOnce
        ⟨some 500, some "/api/menu", none, false, false, none⟩ :=
  (requestWrapper_no_retry (TransportResult.ok (0 : Nat)) 0 _).2.2.2.1
    (by decide)

theorem find?_filter_ne (st : Store) (k k' : String) (h : k' ≠ k) :
    (st.filter (fun p => p.1 != k)).find? (fun p => p.1 == k') =
      st.find? (fun p => p.1 == k') := by
  induction st with
  | nil => rfl
  | cons a t ih =>
    by_cases ha : a.1 = k
    · have h2 : (k == k') = false := beq_eq_false_iff_ne.mpr (Ne.symm h)
      simp [List.filter_cons, ha, List.find?_cons, h2, ih]
    · cases hk : (a.1 == k') with
      | true => simp [List.filter_cons, ha, List.find?_cons, hk]
      | false => simp [List.filter_cons, ha, List.find?_cons, hk, ih]

theorem Store.getItem_setItem_self (st : Store) (k : String) (v : StoredVal) :
    (st.setItem k v).getItem k = some v := by
  simp [Store.getItem, Store.setItem, List.find?_cons]

theorem Store.getItem_setItem_ne (st : Store) (k k' : String) (v : StoredVal)
    (h : k' ≠ k) :
    (st.setItem k v).getItem k' = st.getItem k' := by
  have h2 : (k == k') = false := beq_eq_false_iff_ne.mpr (Ne.symm h)
  simp only [Store.getItem, Store.setItem, List.find?_cons, h2, cond_false,
    find?_filter_ne st k k' h]

theorem Store.getItem_removeItem_self (st : Store) (k : String) :
    (st.removeItem k).getItem k = none := by
  unfold Store.getItem Store.removeItem
  rw [List.find?_eq_none.mpr]
  · rfl
  · intro x hx
    rw [List.mem_filter] at hx
    simpa using hx.2

theorem Store.getItem_removeItem_ne (st : Store) (k k' : String)
    (h : k' ≠ k) :
    (st.removeItem k).getItem k' = st.getItem k' := by
  simp only [Store.getItem, Store.removeItem, find?_filter_ne st k k' h]

/-- C3 counterexample: flushing the frontend logger writes the
sessionStorage key `app_logs`, which is none of `auth_token`, `user`,
`token_metadata` — the client's storage footprint is not limited to those
three keys. -/
theorem storageFootprint_claim_counterexample :
    (loggerFlushSession [] ["boot message"] 10000 0).getItem "app_logs" =
      some (.logs ["boot message"]) ∧
    ¬ ("app_logs" ∈ (["auth_token", "user", "token_metadata"] :
      List String)) := by
  decide

/-- C3 (amended): `setToken` writes exactly `auth_token` (cookie,
sessionStorage, localStorage) and `token_metadata` (localStorage);
`setUser` writes exactly `user` (localStorage); `removeToken` removes
`auth_token`, `user` and `token_metadata` and in addition clears all of
sessionStorage; but the client's storage footprint is not limited to
those keys: the logger also reads and writes `app_logs` in
sessionStorage (touching no other sessionStorage key). -/
theorem storage_footprint (s : BrowserState) (tok userJson ua dom : String)
    (now : Int) (k : String) (sess : Store) (buf : List String)
    (n lf : Int) :
    ((setToken s tok now ua dom).cookies.getItem "auth_token" =
        some (.str tok) ∧
      (setToken s tok now ua dom).session.getItem "auth_token" =
        some (.str tok) ∧
      (setToken s tok now ua dom).localS.getItem "auth_token" =
        some (.str tok) ∧
      (setToken s tok now ua dom).localS.getItem "token_metadata" =
        some (.meta ⟨now, ua, dom⟩)) ∧
    (k ≠ "auth_token" →
      (setToken s tok now ua dom).cookies.getItem k = s.cookies.getItem k ∧
      (setToken s tok now ua dom).session.getItem k = s.session.getItem k) ∧
    (k ≠ "auth_token" → k ≠ "token_metadata" →
      (setToken s tok now ua dom).localS.getItem k = s.localS.getItem k) ∧
    ((setUser s userJson).localS.getItem "user" = some (.str userJson) ∧
      (setUser s userJson).cookies = s.cookies ∧
      (setUser s userJson).session = s.session) ∧
    (k ≠ "user" →
      (setUser s userJson).localS.getItem k = s.localS.getItem k) ∧
    ((removeToken s).cookies.getItem "auth_token" = none ∧
      (removeToken s).session = [] ∧
      (removeToken s).localS.getItem "auth_token" = none ∧
      (removeToken s).localS.getItem "user" = none ∧
      (removeToken s).localS.getItem "token_metadata" = none) ∧
    (k ≠ "auth_token" →
      (removeToken s).cookies.getItem k = s.cookies.getItem k) ∧
    (k ≠ "auth_token" → k ≠ "user" → k ≠ "token_metadata" →
      (removeToken s).localS.getItem k = s.localS.getItem k) ∧
    (k ≠ "app_logs" →
      (loggerFlushSession sess buf n lf).getItem k = sess.getItem k) := by
  refine ⟨⟨?_, ?_, ?_, ?_⟩, fun h => ⟨?_, ?_⟩, fun h1 h2 => ?_,
    ⟨?_, rfl, rfl⟩, fun h => ?_, ⟨?_, rfl, ?_, ?_, ?_⟩, fun h => ?_,
    fun h1 h2 h3 => ?_, fun h => ?_⟩
  · exact Store.getItem_setItem_self _ _ _
  · exact Store.getItem_setItem_self _ _ _
  · show ((s.localS.setItem "auth_token" _).setItem "token_metadata"
      _).getItem "auth_token" = _
    rw [Store.getItem_setItem_ne _ _ _ _ (by decide)]
    exact Store.getItem_setItem_self _ _ _
  · exact Store.getItem_setItem_self _ _ _
  · exact Store.getItem_setItem_ne _ _ _ _ h
  · exact Store.getItem_setItem_ne _ _ _ _ h
  · show ((s.localS.setItem "auth_token" _).setItem "token_metadata"
      _).getItem k = _
    rw [Store.getItem_setItem_ne _ _ _ _ h2]
    exact Store.getItem_setItem_ne _ _ _ _ h1
  · exact Store.getItem_setItem_self _ _ _
  · exact Store.getItem_setItem_ne _ _ _ _ h
  · exact Store.getItem_removeItem_self _ _
  · show (((s.localS.removeItem "auth_token").removeItem
      "user").removeItem "token_metadata").getItem "auth_token" = none
    rw [Store.getItem_removeItem_ne _ _ _ (by decide),
      Store.getItem_removeItem_ne _ _ _ (by decide)]
    exact Store.getItem_removeItem_self _ _
  · show (((s.localS.removeItem "auth_token").removeItem
      "user").removeItem "token_metadata").getItem "user" = none
    rw [Store.getItem_removeItem_ne _ _ _ (by decide)]
    exact Store.getItem_removeItem_self _ _
  · exact Store.getItem_removeItem_self _ _
  · exact Store.getItem_removeItem_ne _ _ _ h
  · show (((s.localS.removeItem "auth_token").removeItem
      "user").removeItem "token_metadata").getItem k = _
    rw [Store.getItem_removeItem_ne _ _ _ h3,
      Store.getItem_removeItem_ne _ _ _ h2]
    exact Store.getItem_removeItem_ne _ _ _ h1
  · unfold loggerFlushSession
    split
    · rfl
    · split
      · exact Store.getItem_setItem_ne _ _ _ _ h
      · exact Store.getItem_setItem_ne _ _ _ _ h
      · rfl

/-- Witness for C3 (amended): `removeToken` leaves an unrelated
localStorage key in place. -/
theorem storage_footprint_witness :
    (removeToken ⟨[], [], [("customQueries", StoredVal.str "[]"),
      ("auth_token", StoredVal.str "t")]⟩).localS.getItem "customQueries" =
      some (StoredVal.str "[]") := by
  have h := (storage_footprint
    ⟨[], [], [("customQueries", StoredVal.str "[]"),
      ("auth_token", StoredVal.str "t")]⟩
    "t" "u" "ua" "d" 0 "customQueries" [] [] 0 0).2.2.2.2.2.2.2.1
  rw [h (by decide) (by decide) (by decide)]
  decide

/-- C8: when a stored token exists together with a parsed
`token_metadata` whose user agent differs from the current one or whose
issue time is more than 24 h in the past, `getToken` wipes all stored
auth data and returns `null`; otherwise it returns the stored token
unchanged, preferring sessionStorage, then the cookie, then
localStorage (empty strings being falsy at every step). -/
theorem getToken_spec (s : BrowserState) (now : Int) (ua tok : String)
    (m : TokenMetadata) :
    (storedTokenLookup s = some tok →
      s.localS.getItem "token_metadata" = some (.meta m) →
      m.userAgent ≠ ua ∨ now - m.issued > tokenMaxAgeMs →
      getToken s now ua = (none, removeToken s) ∧
      (removeToken s).cookies.getItem "auth_token" = none ∧
      (removeToken s).session = [] ∧
      (removeToken s).localS.getItem "auth_token" = none ∧
      (removeToken s).localS.getItem "user" = none ∧
      (removeToken s).localS.getItem "token_metadata" = none) ∧
    (storedTokenLookup s = some tok → metadataAccepts s now ua = true →
      getToken s now ua = (some tok, s)) ∧
    (storedTokenLookup s = none → getToken s now ua = (none, s)) ∧
    (∀ t, s.session.getStr "auth_token" = some t → t ≠ "" →
      storedTokenLookup s = some t) ∧
    (∀ t, (s.session.getStr "auth_token" = none ∨
        s.session.getStr "auth_token" = some "") →
      s.cookies.getStr "auth_token" = some t → t ≠ "" →
      storedTokenLookup s = some t) ∧
    (∀ t, (s.session.getStr "auth_token" = none ∨
        s.session.getStr "auth_token" = some "") →
      (s.cookies.getStr "auth_token" = none ∨
        s.cookies.getStr "auth_token" = some "") →
      s.localS.getStr "auth_token" = some t → t ≠ "" →
      storedTokenLookup s = some t) := by
  refine ⟨fun h1 h2 h3 => ?_, fun h1 h2 => ?_, fun h1 => ?_,
    fun t h1 h2 => ?_, fun t h1 h2 h3 => ?_, fun t h1 h2 h3 h4 => ?_⟩
  · refine ⟨?_, Store.getItem_removeItem_self _ _, rfl, ?_, ?_, ?_⟩
    · unfold getToken
      rw [h1, h2]
      by_cases hua : m.userAgent = ua
      · rcases h3 with h3 | h3
        · exact absurd hua h3
        · simp [hua, h3]
      · simp [hua]
    · show (((s.localS.removeItem "auth_token").removeItem
        "user").removeItem "token_metadata").getItem "auth_token" = none
      rw [Store.getItem_removeItem_ne _ _ _ (by decide),
        Store.getItem_removeItem_ne _ _ _ (by decide)]
      exact Store.getItem_removeItem_self _ _
    · show (((s.localS.removeItem "auth_token").removeItem
        "user").removeItem "token_metadata").getItem "user" = none
      rw [Store.getItem_removeItem_ne _ _ _ (by decide)]
      exact Store.getItem_removeItem_self _ _
    · exact Store.getItem_removeItem_self _ _
  · unfold getToken
    rw [h1]
    unfold metadataAccepts at h2
    cases hm : s.localS.getItem "token_metadata" with
    | none => rfl
    | some v =>
      cases v with
      | str sv => rfl
      | logs lv => rfl
      | meta mv =>
        rw [hm] at h2
        simp only [Bool.and_eq_true, beq_iff_eq, decide_eq_true_eq] at h2
        have hlt : ¬ (now - mv.issued > tokenMaxAgeMs) := not_lt.mpr h2.2
        simp [h2.1, hlt]
  · unfold getToken
    rw [h1]
  · unfold storedTokenLookup
    rw [h1]
    simp [jsOrStr, h2]
  · unfold storedTokenLookup
    rcases h1 with h1 | h1 <;> rw [h1] <;> simp [jsOrStr, h3]
    <;> rw [h2] <;> simp [jsOrStr, h3]
  · unfold storedTokenLookup
    rcases h1 with h1 | h1 <;> rcases h2 with h2 | h2 <;>
      rw [h1, h2, h3] <;> simp [jsOrStr, h4]

/-- Witness for C8 at a concrete storage state: a sessionStorage token
with fresh same-agent metadata is returned; stale metadata wipes the
store. -/
theorem getToken_spec_witness :
    getToken ⟨[], [("auth_token", StoredVal.str "sess-tok")],
      [("token_metadata", StoredVal.meta ⟨0, "UA", "localhost"⟩)]⟩
      1000 "UA" =
      (some "sess-tok", ⟨[], [("auth_token", StoredVal.str "sess-tok")],
        [("token_metadata", StoredVal.meta ⟨0, "UA", "localhost"⟩)]⟩) ∧
    getToken ⟨[], [("auth_token", StoredVal.str "sess-tok")],
      [("token_metadata", StoredVal.meta ⟨0, "other UA", "localhost"⟩)]⟩
      1000 "UA" =
      (none, removeToken ⟨[], [("auth_token", StoredVal.str "sess-tok")],
        [("token_metadata", StoredVal.meta ⟨0, "other UA", "localhost"⟩)]⟩) := by
  constructor
  · exact (getToken_spec _ 1000 "UA" "sess-tok"
      ⟨0, "UA", "localhost"⟩).2.1 (by decide) (by decide)
  · exact ((getToken_spec _ 1000 "UA" "sess-tok"
      ⟨0, "other UA", "localhost"⟩).1 (by decide) (by decide)
      (Or.inl (by decide))).1

/-- C9 counterexample: with an empty search term the table keeps every
row — including a row whose only cell is null, which contains no search
term at all — so "exactly the rows in which some cell contains the
search term" fails. -/
theorem dataTable_claim_counterexample :
    paginatedData [[(none : Option String)]] "" [] 1 10 =
      [[(none : Option String)]] ∧
    claimNineRowPred "" [] [(none : Option String)] = false := by
  decide

/-- C9 (amended): the filtered rows are exactly those in which the search
term is empty or some (non-null) cell contains it case-insensitively,
and, for every non-empty column filter, the cell at that column
(rendered as the empty string when missing or null) contains the filter
value case-insensitively; the displayed page is the slice of the
filtered rows from `(currentPage-1)*pageSize` to `currentPage*pageSize`,
so at most `pageSize` rows are shown. -/
theorem dataTable_filter_pagination (rows : List (List (Option String)))
    (term : String) (filters : List (Nat × String))
    (currentPage pageSize : Nat) (row : List (Option String)) :
    (row ∈ filteredData rows term filters ↔
      row ∈ rows ∧
      (term = "" ∨ ∃ c ∈ row, cellMatchesSearch term c = true) ∧
      (∀ f ∈ filters, f.2 = "" ∨
        jsIncludes (cellValueAt row f.1) f.2.toLower = true)) ∧
    (1 ≤ currentPage →
      paginatedData rows term filters currentPage pageSize =
        ((filteredData rows term filters).take
          (currentPage * pageSize)).drop ((currentPage - 1) * pageSize)) ∧
    (paginatedData rows term filters currentPage pageSize).length ≤
      pageSize := by
  refine ⟨?_, fun hp => ?_, ?_⟩
  · simp only [filteredData, List.mem_filter, Bool.and_eq_true,
      rowMatchesSearch, Bool.or_eq_true, beq_iff_eq, List.any_eq_true,
      rowMatchesFilters, List.all_eq_true]
  · obtain ⟨q, rfl⟩ : ∃ q, currentPage = q + 1 := ⟨currentPage - 1, by omega⟩
    unfold paginatedData
    rw [List.drop_take]
    congr 1
    simp [Nat.succ_mul, Nat.add_sub_cancel_left]
  · exact List.length_take_le _ _

/-- Witness for C9 (amended) on a concrete table. -/
theorem dataTable_filter_pagination_witness :
    paginatedData [[some "Alice"], [some "Bob"]] "ali" [] 1 1 =
      ((filteredData [[some "Alice"], [some "Bob"]] "ali" []).take
        (1 * 1)).drop ((1 - 1) * 1) :=
  (dataTable_filter_pagination [[some "Alice"], [some "Bob"]] "ali" []
    1 1 []).2.1 (by decide)

end DAW
